import Mathlib

/-!
Verification of the connection-and-command-dispatch core of `fsradio_gui.py`
(class `RadioService`): endpoint candidate resolution, connect-with-fallback,
the session-state invariant, and the guarded command wrappers.

Strings are embedded as `List Char`.  Python exceptions are embedded as
`Option`/`Except` results.  The external `afsapi` library (`AFSAPI`) is the
`DeviceTransport` collaborator; it is embedded as a record of functions that
either return a value or an error, abstract in the handle type `H`, the
error type `E` and the preset type `P`.
-/

/-- ASCII whitespace removed by Python `str.strip()` (Python also strips some
Unicode space code points; all inputs of interest here are ASCII). -/
def isPySpace (c : Char) : Bool :=
  c = ' ' || c = '\t' || c = '\n' || c = '\r' || c = '\x0b' || c = '\x0c'

/-- Python `s.strip()`: drop whitespace from both ends. -/
def pyStrip (l : List Char) : List Char :=
  ((l.dropWhile isPySpace).reverse.dropWhile isPySpace).reverse

/-- Python `s.startswith(p)`. -/
def startsWithL (p l : List Char) : Bool :=
  decide (l.take p.length = p)

/-- Python `s.endswith(p)`. -/
def endsWithL (p l : List Char) : Bool :=
  startsWithL p.reverse l.reverse

def httpP : List Char := "http://".toList

def httpsP : List Char := "https://".toList

/-- `re.search(r"/(device|fsapi)(/)?$", s)` as used in `_normalize_candidates`:
the string `s` has already been stripped, so it has no trailing newline and
the unanchored search with `$` is exactly an ends-with test against the four
possible matches of the pattern. -/
def endsInApiPath (s : List Char) : Bool :=
  endsWithL "/device".toList s || endsWithL "/fsapi".toList s ||
  endsWithL "/device/".toList s || endsWithL "/fsapi/".toList s

/-- Python `s.rstrip("/")`: drop trailing slashes. -/
def rstripSlash (l : List Char) : List Char :=
  (l.reverse.dropWhile (fun c => c = '/')).reverse

/-- Python `s.split("//", 1)[1]`: the part after the first occurrence of
`//`.  Returns `none` when `//` does not occur, in which case the Python
indexing `[1]` raises `IndexError`. -/
def afterDSlash : List Char → Option (List Char)
  | '/' :: '/' :: rest => some rest
  | _ :: rest => afterDSlash rest
  | [] => none

/-- Python `":" in host_only`. -/
def hasColon (l : List Char) : Bool :=
  l.any (fun c => c = ':')

/-- The dedupe loop of `_normalize_candidates`: keep the first occurrence of
each candidate, preserving order (`seen` accumulates what was already kept). -/
def dedupeAux (seen : List (List Char)) : List (List Char) → List (List Char)
  | [] => []
  | c :: rest =>
    if seen.contains c then dedupeAux seen rest
    else c :: dedupeAux (c :: seen) rest

def dedupe (l : List (List Char)) : List (List Char) :=
  dedupeAux [] l

/-- The scheme-normalisation step of `_normalize_candidates`: prepend
`http://` unless the string already starts with `http://` or `https://`. -/
def schemeNorm (s : List Char) : List Char :=
  if startsWithL httpP s || startsWithL httpsP s then s else httpP ++ s

/-- `RadioService._normalize_candidates` (the spec's `EndpointResolver.resolve`).
Returns `none` when the Python code raises `IndexError` (the `split("//", 1)[1]`
indexing, reachable when stripping trailing slashes consumed the `//` of the
scheme, e.g. for input `"https://"`). -/
def normalize_candidates (user_input : List Char) : Option (List (List Char)) :=
  let s0 := pyStrip user_input
  if s0 = [] then some []
  else
    let s := schemeNorm s0
    if endsInApiPath s then some [s]
    else
      let host_port := rstripSlash s
      match afterDSlash host_port with
      | none => none
      | some host_only =>
        let has_port := hasColon host_only
        some (dedupe
          [ host_port ++ (if has_port then "/device".toList else ":80/device".toList),
            host_port ++ (if has_port then "/fsapi".toList else ":80/fsapi".toList),
            host_port ])

/-- The `DeviceTransport` collaborator (the external `afsapi` library).
`create` is `AFSAPI.create(base, pin, timeout)`; the other fields are the
async device methods invoked on the handle it returns.  Each call either
returns a value (`Except.ok`) or raises (`Except.error`).  `H` is the opaque
handle type, `E` the exception type, `P` the opaque preset type. -/
structure Transport (H E P : Type) where
  create : List Char → Int → Int → Except E H
  get_friendly_name : H → Except E (List Char)
  get_power : H → Except E Bool
  set_power : H → Bool → Except E Unit
  get_volume : H → Except E Int
  set_volume : H → Int → Except E Unit
  get_modes : H → Except E (List (List Char))
  set_mode : H → List Char → Except E Unit
  get_presets : H → Except E (List P)
  recall_preset : H → P → Except E Unit

/-- The mutable fields of `RadioService` that make up the session state
(`_api`, `_connected`, `url_used`, `pin`, `timeout`).  The event-loop and
thread fields are executor plumbing and carry no session information. -/
structure RadioService (H : Type) where
  api : Option H
  connected : Bool
  url_used : Option (List Char)
  pin : Int
  timeout : Int
deriving DecidableEq

/-- `RadioService.__init__`: no handle, disconnected, no URL, defaults. -/
def RadioService.init {H : Type} : RadioService H :=
  ⟨none, false, none, 1234, 2⟩

/-- `RadioService.is_connected`: `self._connected and self._api is not None`. -/
def RadioService.is_connected {H : Type} (s : RadioService H) : Bool :=
  s.connected && s.api.isSome

/-- The inner `_create` coroutine of `connect`: create the transport handle
for candidate `base`, then probe it with `get_friendly_name`; the handle is
returned only if both steps succeed, and the first raised error propagates. -/
def attemptCreate {H E P : Type} (t : Transport H E P) (pin tmo : Int)
    (base : List Char) : Except E H :=
  match t.create base pin tmo with
  | .error e => .error e
  | .ok api =>
    match t.get_friendly_name api with
    | .error e => .error e
    | .ok _ => .ok api

/-- `true` iff an attempt (create + probe) succeeded. -/
def exceptOk {E H : Type} : Except E H → Bool
  | .ok _ => true
  | .error _ => false

/-- Outcome of `connect`: normal return, the aggregate `RuntimeError` when no
candidate worked (carrying the candidate list interpolated into the message
and `last_err`), or a propagated exception from `_normalize_candidates`. -/
inductive ConnectOutcome (E : Type) : Type
  | ok : ConnectOutcome E
  | allFailed (tried : List (List Char)) (lastErr : Option E) : ConnectOutcome E
  | resolveExn : ConnectOutcome E

/-- Result of running `connect`: the post-call service state, the outcome,
and (as instrumentation for the short-circuit property) the list of
candidates actually attempted, in order. -/
structure ConnectResult (H E : Type) where
  service : RadioService H
  outcome : ConnectOutcome E
  attempted : List (List Char)

/-- The candidate loop of `connect` (lines 110-125): try candidates in
order, record the last error, stop at the first success.  Returns the
successful `(candidate, handle)` if any, the final `last_err`, and the list
of candidates attempted. -/
def connectLoop {H E P : Type} (t : Transport H E P) (pin tmo : Int) :
    List (List Char) → Option E →
    Option (List Char × H) × Option E × List (List Char)
  | [], le => (none, le, [])
  | base :: rest, le =>
    match attemptCreate t pin tmo base with
    | .ok api => (some (base, api), le, [base])
    | .error e =>
      let r := connectLoop t pin tmo rest (some e)
      (r.1, r.2.1, base :: r.2.2)

/-- `RadioService.connect(user_url, pin, timeout)`.  Sets `pin`/`timeout`,
resets the session fields (the DNS pre-check swallows every exception and
touches no state, so it is omitted), then runs the candidate loop; on
success it installs the handle, flag and URL, otherwise it raises the
aggregate error.  The `AFSAPI is None` dependency check is outside the
model: a `Transport` is given. -/
def RadioService.connect {H E P : Type} (t : Transport H E P)
    (s : RadioService H) (user_url : List Char) (pin tmo : Int) :
    ConnectResult H E :=
  let s1 : RadioService H :=
    { s with pin := pin, timeout := tmo,
             api := none, connected := false, url_used := none }
  match normalize_candidates user_url with
  | none => ⟨s1, .resolveExn, []⟩
  | some cands =>
    match connectLoop t pin tmo cands none with
    | (some (base, api), _, att) =>
      ⟨{ s1 with api := some api, connected := true, url_used := some base },
       .ok, att⟩
    | (none, le, att) => ⟨s1, .allFailed cands le, att⟩

/-- Errors a guarded wrapper can raise: the `RuntimeError("Not connected to a
radio.")` from `_require`, or the exception a transport call raised (the
source re-raises the transport exception itself; the constructor tag records
which of the two code paths produced the error). -/
inductive OpError (E : Type) : Type
  | notConnected : OpError E
  | deviceCallFailed (cause : E) : OpError E
deriving DecidableEq

/-- Result of a guarded wrapper: the post-call service state (the wrappers
assign no field, so it equals the pre-state), the returned value or error,
and (as instrumentation for the guard property) how many transport calls
were made. -/
structure OpResult (H E α : Type) where
  service : RadioService H
  result : Except (OpError E) α
  transport_calls : Nat

/-- Common shape of the nine guarded wrappers: `self._require()` (raise
`NotConnected` unless `is_connected()`), then forward one call to the
transport handle. -/
def require_then {H E α : Type} (s : RadioService H) (call : H → Except E α) :
    OpResult H E α :=
  if s.is_connected then
    match s.api with
    | some api =>
      match call api with
      | .ok v => ⟨s, .ok v, 1⟩
      | .error e => ⟨s, .error (.deviceCallFailed e), 1⟩
    | none => ⟨s, .error .notConnected, 0⟩
  else ⟨s, .error .notConnected, 0⟩

def RadioService.get_friendly_name {H E P : Type} (t : Transport H E P)
    (s : RadioService H) : OpResult H E (List Char) :=
  require_then s t.get_friendly_name

def RadioService.get_power {H E P : Type} (t : Transport H E P)
    (s : RadioService H) : OpResult H E Bool :=
  require_then s t.get_power

def RadioService.set_power {H E P : Type} (t : Transport H E P)
    (s : RadioService H) (onVal : Bool) : OpResult H E Unit :=
  require_then s (fun api => t.set_power api onVal)

def RadioService.get_volume {H E P : Type} (t : Transport H E P)
    (s : RadioService H) : OpResult H E Int :=
  require_then s t.get_volume

def RadioService.set_volume {H E P : Type} (t : Transport H E P)
    (s : RadioService H) (value : Int) : OpResult H E Unit :=
  require_then s (fun api => t.set_volume api value)

def RadioService.get_modes {H E P : Type} (t : Transport H E P)
    (s : RadioService H) : OpResult H E (List (List Char)) :=
  require_then s t.get_modes

def RadioService.set_mode {H E P : Type} (t : Transport H E P)
    (s : RadioService H) (mode : List Char) : OpResult H E Unit :=
  require_then s (fun api => t.set_mode api mode)

def RadioService.get_presets {H E P : Type} (t : Transport H E P)
    (s : RadioService H) : OpResult H E (List P) :=
  require_then s t.get_presets

def RadioService.recall_preset {H E P : Type} (t : Transport H E P)
    (s : RadioService H) (preset : P) : OpResult H E Unit :=
  require_then s (fun api => t.recall_preset api preset)

/-- Modelled from the spec: the source file has no `disconnect` method (the
spec's ConnectionSession contract §4.2 introduces it); per the spec it
"unconditionally clears the session to the absent state". -/
def RadioService.disconnect {H : Type} (s : RadioService H) : RadioService H :=
  { s with api := none, connected := false, url_used := none }

/-- A concrete fake transport whose `create` rejects exactly the first
default candidate for host `radio` and accepts any other URL. -/
def tC1 : Transport Unit Nat Unit where
  create := fun base _ _ =>
    if base = "http://radio:80/device".toList then .error 1 else .ok ()
  get_friendly_name := fun _ => .ok "R".toList
  get_power := fun _ => .ok true
  set_power := fun _ _ => .ok ()
  get_volume := fun _ => .ok 10
  set_volume := fun _ _ => .ok ()
  get_modes := fun _ => .ok []
  set_mode := fun _ _ => .ok ()
  get_presets := fun _ => .ok []
  recall_preset := fun _ _ => .ok ()

/-- A concrete fake transport whose `create` always raises. -/
def tC2 : Transport Unit Nat Unit where
  create := fun _ _ _ => .error 7
  get_friendly_name := fun _ => .ok "R".toList
  get_power := fun _ => .ok true
  set_power := fun _ _ => .ok ()
  get_volume := fun _ => .ok 10
  set_volume := fun _ _ => .ok ()
  get_modes := fun _ => .ok []
  set_mode := fun _ _ => .ok ()
  get_presets := fun _ => .ok []
  recall_preset := fun _ _ => .ok ()

/-- A concrete fake transport whose `create` succeeds but whose device
methods all raise. -/
def tC6 : Transport Unit Nat Unit where
  create := fun _ _ _ => .ok ()
  get_friendly_name := fun _ => .error 3
  get_power := fun _ => .error 4
  set_power := fun _ _ => .error 5
  get_volume := fun _ => .error 6
  set_volume := fun _ _ => .error 7
  get_modes := fun _ => .error 8
  set_mode := fun _ _ => .error 9
  get_presets := fun _ => .error 10
  recall_preset := fun _ _ => .error 11

/-- A connected concrete session state, as `connect` would leave it. -/
def sC6 : RadioService Unit :=
  ⟨some (), true, some "http://radio".toList, 1234, 2⟩

/-- The value `last_err` holds after the candidates in the list have been
attempted without a success stopping the loop earlier. -/
def errAcc {H E P : Type} (t : Transport H E P) (pin tmo : Int) :
    Option E → List (List Char) → Option E
  | le, [] => le
  | le, base :: rest =>
    errAcc t pin tmo
      (match attemptCreate t pin tmo base with
       | .error e => some e
       | .ok _ => le) rest

/-- The session invariant of the spec's data model: the service is flagged
connected iff a transport handle is present, the active URL is set iff
connected, and a connected session's handle was obtained from its active
URL by a create whose probe succeeded (with the session's own pin and
timeout). -/
def SessionInv {H E P : Type} (t : Transport H E P) (s : RadioService H) :
    Prop :=
  (s.connected = true ↔ s.api.isSome = true) ∧
  (s.url_used.isSome = true ↔ s.connected = true) ∧
  (s.connected = true →
    ∃ hdl c, s.api = some hdl ∧ s.url_used = some c ∧
      attemptCreate t s.pin s.timeout c = .ok hdl)

lemma startsWithL_append (p w : List Char) : startsWithL p (p ++ w) = true := by
  simp [startsWithL, List.take_left]

lemma startsWithL_ex {p l : List Char} (h : startsWithL p l = true) :
    ∃ w, l = p ++ w := by
  simp only [startsWithL, decide_eq_true_eq] at h
  refine ⟨l.drop p.length, ?_⟩
  nth_rewrite 1 [← List.take_append_drop p.length l]
  rw [h]

lemma exceptOk_false {E H : Type} {x : Except E H} (h : exceptOk x = false) :
    ∃ e, x = .error e := by
  cases x with
  | error e => exact ⟨e, rfl⟩
  | ok v => simp [exceptOk] at h

lemma dedupeAux_subset {c : List Char} :
    ∀ (seen l : List (List Char)), c ∈ dedupeAux seen l → c ∈ l := by
  intro seen l
  induction l generalizing seen with
  | nil => simp [dedupeAux]
  | cons x rest ih =>
    intro h
    unfold dedupeAux at h
    by_cases hx : seen.contains x
    · rw [if_pos hx] at h
      exact List.mem_cons_of_mem _ (ih _ h)
    · rw [if_neg hx] at h
      rcases List.mem_cons.mp h with h1 | h2
      · exact h1 ▸ List.mem_cons_self _ _
      · exact List.mem_cons_of_mem _ (ih _ h2)

lemma dedupe_subset {c : List Char} {l : List (List Char)}
    (h : c ∈ dedupe l) : c ∈ l :=
  dedupeAux_subset [] l h

lemma connectLoop_skip {H E P : Type} (t : Transport H E P) (pin tmo : Int)
    (l₁ rest : List (List Char)) (le : Option E)
    (h : ∀ c ∈ l₁, exceptOk (attemptCreate t pin tmo c) = false) :
    connectLoop t pin tmo (l₁ ++ rest) le =
      ((connectLoop t pin tmo rest (errAcc t pin tmo le l₁)).1,
       (connectLoop t pin tmo rest (errAcc t pin tmo le l₁)).2.1,
       l₁ ++ (connectLoop t pin tmo rest (errAcc t pin tmo le l₁)).2.2) := by
  induction l₁ generalizing le with
  | nil => simp [errAcc]
  | cons base l₁ ih =>
    obtain ⟨e, he⟩ :=
      exceptOk_false (h base (List.mem_cons_self _ _))
    have hrec := ih (some e) (fun c hc => h c (List.mem_cons_of_mem _ hc))
    simp only [List.cons_append, connectLoop, he, List.append_eq, hrec, errAcc,
      List.append_assoc]

lemma connectLoop_all_fail {H E P : Type} (t : Transport H E P) (pin tmo : Int)
    (l : List (List Char)) (le : Option E)
    (h : ∀ c ∈ l, exceptOk (attemptCreate t pin tmo c) = false) :
    connectLoop t pin tmo l le = (none, errAcc t pin tmo le l, l) := by
  have hskip := connectLoop_skip t pin tmo l [] le h
  simpa [connectLoop] using hskip

lemma errAcc_last {H E P : Type} (t : Transport H E P) (pin tmo : Int)
    (l : List (List Char)) (c : List Char) (e : E)
    (hA : attemptCreate t pin tmo c = .error e) (le : Option E) :
    errAcc t pin tmo le (l ++ [c]) = some e := by
  induction l generalizing le with
  | nil => simp [errAcc, hA]
  | cons x l ih => simp only [List.cons_append, errAcc]; exact ih _

lemma connectLoop_ok {H E P : Type} (t : Transport H E P) (pin tmo : Int) :
    ∀ (l : List (List Char)) (le : Option E) (c : List Char) (hdl : H),
    (connectLoop t pin tmo l le).1 = some (c, hdl) →
    attemptCreate t pin tmo c = .ok hdl := by
  intro l
  induction l with
  | nil => intro le c hdl h; simp [connectLoop] at h
  | cons base rest ih =>
    intro le c hdl h
    unfold connectLoop at h
    cases hA : attemptCreate t pin tmo base with
    | ok api =>
      rw [hA] at h
      simp only [Option.some.injEq, Prod.mk.injEq] at h
      rw [← h.1, ← h.2]; exact hA
    | error e =>
      rw [hA] at h
      exact ih (some e) c hdl h

lemma require_then_service {H E α : Type} (s : RadioService H)
    (call : H → Except E α) : (require_then s call).service = s := by
  unfold require_then
  repeat' split
  all_goals rfl

lemma rstripSlash_all_slash {rest : List Char} (h : ∀ a ∈ rest, a = '/') :
    rstripSlash (httpsP ++ rest) = "https:".toList := by
  unfold rstripSlash
  rw [List.reverse_append,
      List.dropWhile_append_of_pos (fun a ha => by
        simp only [List.mem_reverse] at ha
        exact decide_eq_true (h a ha))]
  decide

lemma rstripSlash_not_all {rest : List Char} (h : ¬ ∀ a ∈ rest, a = '/') :
    rstripSlash (httpsP ++ rest) =
      httpsP ++ (rest.reverse.dropWhile (fun c => c = '/')).reverse := by
  unfold rstripSlash
  rw [List.reverse_append, List.dropWhile_append]
  have hne : rest.reverse.dropWhile (fun c => decide (c = '/')) ≠ [] := by
    intro hnil
    have hall := List.dropWhile_eq_nil_iff.mp hnil
    exact h (fun a ha => by simpa using hall a (List.mem_reverse.mpr ha))
  rw [if_neg (by simpa [List.isEmpty_iff] using hne)]
  simp [List.reverse_append]

/-- C8: `resolve` on the bare host `192.168.0.153` (no scheme, no port)
yields exactly the three default candidates, in priority order, with no
duplicates. -/
theorem resolve_default_candidates :
    normalize_candidates "192.168.0.153".toList =
      some ["http://192.168.0.153:80/device".toList,
            "http://192.168.0.153:80/fsapi".toList,
            "http://192.168.0.153".toList] := by decide

/-- C9: whenever the stripped, scheme-normalised input already ends in one
of the two recognised resource-path suffixes (`/device` or `/fsapi`,
optionally with a trailing slash), `resolve` returns that URL as the sole
candidate. -/
theorem resolve_trailing_api_path (input : List Char)
    (h : endsInApiPath (schemeNorm (pyStrip input)) = true) :
    normalize_candidates input = some [schemeNorm (pyStrip input)] := by
  by_cases h0 : pyStrip input = []
  · rw [h0] at h
    exact absurd h (by decide)
  · simp only [normalize_candidates]
    rw [if_neg h0, if_pos h]

/-- Witness for C9: on input `10.0.0.5:8080/fsapi` the sole candidate is
`http://10.0.0.5:8080/fsapi`. -/
theorem resolve_trailing_api_path_witness :
    endsInApiPath (schemeNorm (pyStrip "10.0.0.5:8080/fsapi".toList)) = true ∧
    normalize_candidates "10.0.0.5:8080/fsapi".toList =
      some ["http://10.0.0.5:8080/fsapi".toList] := by
  refine ⟨by decide, ?_⟩
  exact (resolve_trailing_api_path "10.0.0.5:8080/fsapi".toList
    (by decide)).trans (by decide)

/-- C10: when the trimmed input already starts with `https://`, no `http://`
is prepended and every candidate `resolve` returns starts with `https://`. -/
theorem resolve_preserves_https (input : List Char)
    (h : startsWithL httpsP (pyStrip input) = true) :
    ∀ l, normalize_candidates input = some l →
      ∀ c ∈ l, startsWithL httpsP c = true := by
  intro l hl c hc
  obtain ⟨rest, hrest⟩ := startsWithL_ex h
  have hne : ¬ (pyStrip input = []) := by
    rw [hrest]; simp [httpsP]
  have hsn : schemeNorm (pyStrip input) = pyStrip input := by
    unfold schemeNorm
    rw [if_pos]
    rw [hrest]
    simp [startsWithL_append]
  simp only [normalize_candidates] at hl
  rw [if_neg hne, hsn] at hl
  by_cases hE : endsInApiPath (pyStrip input) = true
  · rw [if_pos hE] at hl
    simp only [Option.some.injEq] at hl
    subst hl
    simp only [List.mem_singleton] at hc
    subst hc
    rw [hrest]
    exact startsWithL_append _ _
  · rw [if_neg hE] at hl
    by_cases hall : ∀ a ∈ rest, a = '/'
    · rw [hrest, rstripSlash_all_slash hall] at hl
      have hA : afterDSlash "https:".toList = none := by decide
      rw [hA] at hl
      exact absurd hl (by simp)
    · rw [hrest, rstripSlash_not_all hall] at hl
      cases hA : afterDSlash
          (httpsP ++ (rest.reverse.dropWhile (fun c => c = '/')).reverse) with
      | none =>
        rw [hA] at hl
        exact absurd hl (by simp)
      | some ho =>
        rw [hA] at hl
        simp only [Option.some.injEq] at hl
        subst hl
        have hc3 := dedupe_subset hc
        simp only [List.mem_cons, List.not_mem_nil, or_false] at hc3
        rcases hc3 with rfl | rfl | rfl
        · rw [List.append_assoc]; exact startsWithL_append _ _
        · rw [List.append_assoc]; exact startsWithL_append _ _
        · exact startsWithL_append _ _

/-- Witness for C10: for input `https://radio.local` all three returned
candidates keep the `https://` scheme. -/
theorem resolve_preserves_https_witness :
    startsWithL httpsP (pyStrip "https://radio.local".toList) = true ∧
    ∀ c ∈ ["https://radio.local:80/device".toList,
           "https://radio.local:80/fsapi".toList,
           "https://radio.local".toList], startsWithL httpsP c = true := by
  refine ⟨by decide, ?_⟩
  exact resolve_preserves_https "https://radio.local".toList (by decide)
    _ (by decide)

/-- C1: if candidate `c` is the first in the resolved candidate list whose
create + probe both succeed (every earlier candidate fails), then `connect`
sets `url_used` to `c`, marks the session connected, and attempts no
candidate after `c`. -/
theorem connect_first_success {H E P : Type} (t : Transport H E P)
    (s : RadioService H) (url : List Char) (pin tmo : Int)
    (l₁ : List (List Char)) (c : List Char) (l₂ : List (List Char)) (hdl : H)
    (hres : normalize_candidates url = some (l₁ ++ c :: l₂))
    (hfail : ∀ c' ∈ l₁, exceptOk (attemptCreate t pin tmo c') = false)
    (hok : attemptCreate t pin tmo c = .ok hdl) :
    (s.connect t url pin tmo).service.url_used = some c ∧
    (s.connect t url pin tmo).service.connected = true ∧
    (s.connect t url pin tmo).attempted = l₁ ++ [c] := by
  have hskip := connectLoop_skip t pin tmo l₁ (c :: l₂) none hfail
  simp [RadioService.connect, hres, hskip, connectLoop, hok]

/-- Witness for C1: with a fake transport rejecting only the first default
candidate of host `radio`, `connect` settles on the second candidate and
never attempts the third. -/
theorem connect_first_success_witness :
    ((RadioService.init.connect tC1 "radio".toList 1234 2)).service.url_used =
      some "http://radio:80/fsapi".toList ∧
    ((RadioService.init.connect tC1 "radio".toList 1234 2)).service.connected = true ∧
    ((RadioService.init.connect tC1 "radio".toList 1234 2)).attempted =
      ["http://radio:80/device".toList] ++ ["http://radio:80/fsapi".toList] := by
  exact connect_first_success tC1 RadioService.init "radio".toList 1234 2
    ["http://radio:80/device".toList] "http://radio:80/fsapi".toList
    ["http://radio".toList] () (by decide) (by decide) rfl

/-- C2: when every resolved candidate fails (create or probe raises), each
failure is swallowed and the loop continues to the next candidate (all
candidates end up attempted), `connect` raises the aggregate error carrying
the full candidate list and the last attempt's error, and the session is
left reset and disconnected. -/
theorem connect_all_failed {H E P : Type} (t : Transport H E P)
    (s : RadioService H) (url : List Char) (pin tmo : Int)
    (l' : List (List Char)) (clast : List Char) (e : E)
    (hres : normalize_candidates url = some (l' ++ [clast]))
    (hfail : ∀ c ∈ l' ++ [clast], exceptOk (attemptCreate t pin tmo c) = false)
    (hlast : attemptCreate t pin tmo clast = .error e) :
    s.connect t url pin tmo =
      ⟨{ s with pin := pin, timeout := tmo,
                api := none, connected := false, url_used := none },
       .allFailed (l' ++ [clast]) (some e), l' ++ [clast]⟩ ∧
    (s.connect t url pin tmo).service.is_connected = false := by
  have hloop := connectLoop_all_fail t pin tmo (l' ++ [clast]) none hfail
  rw [errAcc_last t pin tmo l' clast e hlast none] at hloop
  constructor <;>
    simp [RadioService.connect, hres, hloop, RadioService.is_connected]

/-- Witness for C2: with a fake transport whose `create` always raises
error `7`, connecting to host `radio` attempts all three candidates, raises
the aggregate error carrying all three URLs and the last error, and leaves
the session disconnected. -/
theorem connect_all_failed_witness :
    RadioService.init.connect tC2 "radio".toList 1234 2 =
      ⟨⟨none, false, none, 1234, 2⟩,
       .allFailed (["http://radio:80/device".toList,
                    "http://radio:80/fsapi".toList] ++ ["http://radio".toList])
         (some 7),
       ["http://radio:80/device".toList,
        "http://radio:80/fsapi".toList] ++ ["http://radio".toList]⟩ ∧
    (RadioService.init.connect tC2 "radio".toList 1234 2).service.is_connected
      = false := by
  exact connect_all_failed tC2 RadioService.init "radio".toList 1234 2
    ["http://radio:80/device".toList, "http://radio:80/fsapi".toList]
    "http://radio".toList 7 (by decide) (by decide) rfl

/-- C3: each of the nine guarded command operations, invoked while
`is_connected()` is false, fails immediately with the not-connected error,
leaves the state untouched and makes zero transport calls. -/
theorem guarded_not_connected {H E P : Type} (t : Transport H E P)
    (s : RadioService H) (h : s.is_connected = false)
    (onVal : Bool) (v : Int) (m : List Char) (p : P) :
    s.get_friendly_name t = ⟨s, .error .notConnected, 0⟩ ∧
    s.get_power t = ⟨s, .error .notConnected, 0⟩ ∧
    s.set_power t onVal = ⟨s, .error .notConnected, 0⟩ ∧
    s.get_volume t = ⟨s, .error .notConnected, 0⟩ ∧
    s.set_volume t v = ⟨s, .error .notConnected, 0⟩ ∧
    s.get_modes t = ⟨s, .error .notConnected, 0⟩ ∧
    s.set_mode t m = ⟨s, .error .notConnected, 0⟩ ∧
    s.get_presets t = ⟨s, .error .notConnected, 0⟩ ∧
    s.recall_preset t p = ⟨s, .error .notConnected, 0⟩ := by
  refine ⟨?_, ?_, ?_, ?_, ?_, ?_, ?_, ?_, ?_⟩ <;>
    simp [RadioService.get_friendly_name, RadioService.get_power,
      RadioService.set_power, RadioService.get_volume, RadioService.set_volume,
      RadioService.get_modes, RadioService.set_mode, RadioService.get_presets,
      RadioService.recall_preset, require_then, h]

/-- Witness for C3: on the freshly initialised (disconnected) service every
guarded operation fails with the not-connected error and zero transport
calls. -/
theorem guarded_not_connected_witness :
    (RadioService.init (H := Unit)).get_friendly_name tC1 =
      ⟨RadioService.init, .error .notConnected, 0⟩ ∧
    (RadioService.init (H := Unit)).get_power tC1 =
      ⟨RadioService.init, .error .notConnected, 0⟩ ∧
    (RadioService.init (H := Unit)).set_power tC1 true =
      ⟨RadioService.init, .error .notConnected, 0⟩ ∧
    (RadioService.init (H := Unit)).get_volume tC1 =
      ⟨RadioService.init, .error .notConnected, 0⟩ ∧
    (RadioService.init (H := Unit)).set_volume tC1 9 =
      ⟨RadioService.init, .error .notConnected, 0⟩ ∧
    (RadioService.init (H := Unit)).get_modes tC1 =
      ⟨RadioService.init, .error .notConnected, 0⟩ ∧
    (RadioService.init (H := Unit)).set_mode tC1 "DAB".toList =
      ⟨RadioService.init, .error .notConnected, 0⟩ ∧
    (RadioService.init (H := Unit)).get_presets tC1 =
      ⟨RadioService.init, .error .notConnected, 0⟩ ∧
    (RadioService.init (H := Unit)).recall_preset tC1 () =
      ⟨RadioService.init, .error .notConnected, 0⟩ :=
  guarded_not_connected tC1 RadioService.init rfl true 9 "DAB".toList ()

/-- C5 (spec-modelled `disconnect`): after `disconnect()` the session is
cleared to the absent state: `is_connected()` is false, a second
`disconnect()` changes nothing (idempotence), and every guarded command
invoked afterwards fails with the not-connected error without reaching the
transport. -/
theorem disconnect_clears_session {H E P : Type} (t : Transport H E P)
    (s : RadioService H) (onVal : Bool) (v : Int) (m : List Char) (p : P) :
    s.disconnect.is_connected = false ∧
    s.disconnect.disconnect = s.disconnect ∧
    s.disconnect.get_friendly_name t =
      ⟨s.disconnect, .error .notConnected, 0⟩ ∧
    s.disconnect.get_power t = ⟨s.disconnect, .error .notConnected, 0⟩ ∧
    s.disconnect.set_power t onVal = ⟨s.disconnect, .error .notConnected, 0⟩ ∧
    s.disconnect.get_volume t = ⟨s.disconnect, .error .notConnected, 0⟩ ∧
    s.disconnect.set_volume t v = ⟨s.disconnect, .error .notConnected, 0⟩ ∧
    s.disconnect.get_modes t = ⟨s.disconnect, .error .notConnected, 0⟩ ∧
    s.disconnect.set_mode t m = ⟨s.disconnect, .error .notConnected, 0⟩ ∧
    s.disconnect.get_presets t = ⟨s.disconnect, .error .notConnected, 0⟩ ∧
    s.disconnect.recall_preset t p =
      ⟨s.disconnect, .error .notConnected, 0⟩ := by
  refine ⟨rfl, rfl, ?_, ?_, ?_, ?_, ?_, ?_, ?_, ?_, ?_⟩ <;>
    simp [RadioService.disconnect, RadioService.get_friendly_name,
      RadioService.get_power, RadioService.set_power, RadioService.get_volume,
      RadioService.set_volume, RadioService.get_modes, RadioService.set_mode,
      RadioService.get_presets, RadioService.recall_preset, require_then,
      RadioService.is_connected]

/-- C6: a guarded command invoked while connected, whose forwarded transport
call raises, surfaces the device-call-failed error carrying the underlying
cause and leaves the session state unchanged (still connected, handle and
active URL retained). -/
theorem device_call_failed_no_demote {H E P : Type} (t : Transport H E P)
    (s : RadioService H) (hdl : H)
    (hapi : s.api = some hdl) (hc : s.connected = true) :
    (∀ e, t.get_friendly_name hdl = .error e →
      s.get_friendly_name t = ⟨s, .error (.deviceCallFailed e), 1⟩) ∧
    (∀ e, t.get_power hdl = .error e →
      s.get_power t = ⟨s, .error (.deviceCallFailed e), 1⟩) ∧
    (∀ onVal e, t.set_power hdl onVal = .error e →
      s.set_power t onVal = ⟨s, .error (.deviceCallFailed e), 1⟩) ∧
    (∀ e, t.get_volume hdl = .error e →
      s.get_volume t = ⟨s, .error (.deviceCallFailed e), 1⟩) ∧
    (∀ v e, t.set_volume hdl v = .error e →
      s.set_volume t v = ⟨s, .error (.deviceCallFailed e), 1⟩) ∧
    (∀ e, t.get_modes hdl = .error e →
      s.get_modes t = ⟨s, .error (.deviceCallFailed e), 1⟩) ∧
    (∀ m e, t.set_mode hdl m = .error e →
      s.set_mode t m = ⟨s, .error (.deviceCallFailed e), 1⟩) ∧
    (∀ e, t.get_presets hdl = .error e →
      s.get_presets t = ⟨s, .error (.deviceCallFailed e), 1⟩) ∧
    (∀ p e, t.recall_preset hdl p = .error e →
      s.recall_preset t p = ⟨s, .error (.deviceCallFailed e), 1⟩) := by
  refine ⟨?_, ?_, ?_, ?_, ?_, ?_, ?_, ?_, ?_⟩ <;>
    intro a b <;>
    try intro hcall
  all_goals
    simp_all [RadioService.get_friendly_name, RadioService.get_power,
      RadioService.set_power, RadioService.get_volume, RadioService.set_volume,
      RadioService.get_modes, RadioService.set_mode, RadioService.get_presets,
      RadioService.recall_preset, require_then, RadioService.is_connected,
      hapi, hc]

/-- Witness for C6: on a connected session with a transport whose device
methods all raise, each guarded command surfaces the device-call-failed
error with its cause and leaves the session untouched. -/
theorem device_call_failed_no_demote_witness :
    sC6.get_friendly_name tC6 = ⟨sC6, .error (.deviceCallFailed 3), 1⟩ ∧
    sC6.get_power tC6 = ⟨sC6, .error (.deviceCallFailed 4), 1⟩ ∧
    sC6.set_power tC6 true = ⟨sC6, .error (.deviceCallFailed 5), 1⟩ ∧
    sC6.get_volume tC6 = ⟨sC6, .error (.deviceCallFailed 6), 1⟩ ∧
    sC6.set_volume tC6 9 = ⟨sC6, .error (.deviceCallFailed 7), 1⟩ ∧
    sC6.get_modes tC6 = ⟨sC6, .error (.deviceCallFailed 8), 1⟩ ∧
    sC6.set_mode tC6 "DAB".toList = ⟨sC6, .error (.deviceCallFailed 9), 1⟩ ∧
    sC6.get_presets tC6 = ⟨sC6, .error (.deviceCallFailed 10), 1⟩ ∧
    sC6.recall_preset tC6 () = ⟨sC6, .error (.deviceCallFailed 11), 1⟩ := by
  have h := device_call_failed_no_demote tC6 sC6 () rfl rfl
  exact ⟨h.1 3 rfl, h.2.1 4 rfl, h.2.2.1 true 5 rfl, h.2.2.2.1 6 rfl,
    h.2.2.2.2.1 9 7 rfl, h.2.2.2.2.2.1 8 rfl,
    h.2.2.2.2.2.2.1 "DAB".toList 9 rfl, h.2.2.2.2.2.2.2.1 10 rfl,
    h.2.2.2.2.2.2.2.2 () 11 rfl⟩

/-- C4: the session invariant holds after every public operation: it holds
of the initial state, after any `connect` (whatever its outcome), after
`disconnect` (spec-modelled), and is preserved by every guarded command
(`is_connected` itself reads the state without changing it). -/
theorem session_invariant_all_ops {H E P : Type} (t : Transport H E P) :
    SessionInv t (RadioService.init (H := H)) ∧
    (∀ (s : RadioService H) (url : List Char) (pin tmo : Int),
      SessionInv t ((s.connect t url pin tmo).service)) ∧
    (∀ s : RadioService H, SessionInv t s.disconnect) ∧
    (∀ s : RadioService H, SessionInv t s →
      SessionInv t (s.get_friendly_name t).service ∧
      SessionInv t (s.get_power t).service ∧
      (∀ onVal, SessionInv t (s.set_power t onVal).service) ∧
      SessionInv t (s.get_volume t).service ∧
      (∀ v, SessionInv t (s.set_volume t v).service) ∧
      SessionInv t (s.get_modes t).service ∧
      (∀ m, SessionInv t (s.set_mode t m).service) ∧
      SessionInv t (s.get_presets t).service ∧
      (∀ p, SessionInv t (s.recall_preset t p).service)) := by
  refine ⟨by simp [SessionInv, RadioService.init], ?_, ?_, ?_⟩
  · intro s url pin tmo
    unfold RadioService.connect
    cases hN : normalize_candidates url with
    | none => simp [SessionInv]
    | some cands =>
      rcases hL : connectLoop t pin tmo cands none with ⟨r1, r2, r3⟩
      cases r1 with
      | none => simp [hL, SessionInv]
      | some pr =>
        obtain ⟨base, api⟩ := pr
        have hA : attemptCreate t pin tmo base = .ok api :=
          connectLoop_ok t pin tmo cands none base api (by rw [hL])
        simp only [hL, SessionInv]
        exact ⟨by simp, by simp, fun _ => ⟨api, base, rfl, rfl, by simpa using hA⟩⟩
  · intro s
    simp [SessionInv, RadioService.disconnect]
  · intro s hInv
    refine ⟨?_, ?_, fun onVal => ?_, ?_, fun v => ?_, ?_, fun m => ?_, ?_,
      fun p => ?_⟩ <;>
      simp only [RadioService.get_friendly_name, RadioService.get_power,
        RadioService.set_power, RadioService.get_volume,
        RadioService.set_volume, RadioService.get_modes, RadioService.set_mode,
        RadioService.get_presets, RadioService.recall_preset,
        require_then_service] <;>
      exact hInv

/-- Witness for C4: with the concrete transport `tC1`, the invariant holds
initially, after a connect, after a disconnect, and after a guarded call. -/
theorem session_invariant_all_ops_witness :
    SessionInv tC1 (RadioService.init (H := Unit)) ∧
    SessionInv tC1
      ((RadioService.init.connect tC1 "radio".toList 1234 2).service) ∧
    SessionInv tC1 ((RadioService.init (H := Unit)).disconnect) ∧
    SessionInv tC1
      (((RadioService.init (H := Unit)).get_friendly_name tC1).service) := by
  have h := session_invariant_all_ops tC1
  exact ⟨h.1, h.2.1 _ _ _ _, h.2.2.1 _, (h.2.2.2 _ h.1).1⟩
